import Mathlib

/-!
Shallow embedding of the `Blockchain2TokenAnalyzingRewardSystem` repository
(a single-node Python simulation of a hash-chained ledger with two reward
consensus cycles), together with proofs settling the specification claims.

Modelling conventions, used uniformly below:
* Python `str` values are modelled as Lean `String` where only ASCII data
  occurs, and as `List Nat` of Unicode code points where the exact `ord`/`chr`
  arithmetic matters (the soft-encryption layer).
* Python `float` timestamps and the difficulty scalar are modelled as `Rat`.
  The only places where the decimal rendering of a float is observable are
  strings that feed a hash whose value no claim depends on; those renderings
  are modelled by a documented stand-in (`pyFloatRepr`).
* Machine integers do not occur (Python integers are unbounded); hash-word
  arithmetic inside SHA-256/512 is `Nat` with explicit reductions mod `2^32`
  or `2^64`.
* Calls that raise a Python exception are modelled with `Except PyErr`.
  Several functions of this repository unconditionally raise:
  `security_hasher.py` uses `time.time()` without importing `time`
  (a `NameError` inside `_fictional_sha4091_logic`), and
  `btz_reward_logic.py` line 111 calls `self._determine_highest_traffic_node`,
  a method that does not exist (an `AttributeError`; the defined method is
  `_determine_highest_traffic_winner`).  These error values are part of the
  faithful embedding, not simplifications.
* External collaborator outputs (wall-clock readings, the random traffic
  snapshots of `wifi_analyzer.py`, verifier reports) are passed to the
  embedded functions as explicit arguments.
-/

namespace WifiChain

/-- Python exception values observable at the boundaries we model. -/
inductive PyErr where
  /-- `NameError: name '<ident>' is not defined` -/
  | nameError (ident : String)
  /-- `AttributeError: ... object has no attribute '<attr>'` -/
  | attributeError (attr : String)
  /-- `TypeError` from a call whose arguments do not match the signature. -/
  | typeError (msg : String)
deriving DecidableEq, Repr

/-! ## Byte-level helpers shared by the hash implementations (`hashlib`) -/

/-- UTF-8 encoding of a single Unicode code point (`str.encode('utf-8')`). -/
def utf8CodePoint (c : Nat) : List Nat :=
  if c < 0x80 then [c]
  else if c < 0x800 then [0xc0 ||| (c >>> 6), 0x80 ||| (c &&& 0x3f)]
  else if c < 0x10000 then
    [0xe0 ||| (c >>> 12), 0x80 ||| ((c >>> 6) &&& 0x3f), 0x80 ||| (c &&& 0x3f)]
  else
    [0xf0 ||| (c >>> 18), 0x80 ||| ((c >>> 12) &&& 0x3f),
     0x80 ||| ((c >>> 6) &&& 0x3f), 0x80 ||| (c &&& 0x3f)]

/-- UTF-8 encoding of a string, as a list of bytes. -/
def utf8Encode (s : String) : List Nat :=
  (s.data.map (fun c => utf8CodePoint c.toNat)).flatten

/-- Big-endian bytes of `n`, exactly `k` bytes wide. -/
def beBytes : Nat → Nat → List Nat
  | 0, _ => []
  | k + 1, n => beBytes k (n / 256) ++ [n % 256]

/-- Big-endian word value of a byte list. -/
def beWord (bs : List Nat) : Nat := bs.foldl (fun a b => a * 256 + b) 0

/-- Split a list into consecutive chunks of `k + 1` elements. -/
def chunkBy1 : Nat → List Nat → List (List Nat)
  | _, [] => []
  | k, x :: xs => (x :: xs).take (k + 1) :: chunkBy1 k ((x :: xs).drop (k + 1))
termination_by _ l => l.length
decreasing_by simp [List.length_drop]; omega

/-- Lower-case hexadecimal digit. -/
def hexDigit (n : Nat) : Char :=
  if n < 10 then Char.ofNat (48 + n) else Char.ofNat (87 + n)

/-- Upper-case hexadecimal digit. -/
def hexDigitUpper (n : Nat) : Char :=
  if n < 10 then Char.ofNat (48 + n) else Char.ofNat (55 + n)

/-- Fixed-width lower-case hexadecimal rendering of `n`. -/
def hexFixed : Nat → Nat → String
  | 0, _ => ""
  | w + 1, n => hexFixed w (n / 16) ++ String.singleton (hexDigit (n % 16))

/-- Python `format(n, 'x')`: minimal-width lower-case hex (0 renders as "0"). -/
def hexNat (n : Nat) : String :=
  if n = 0 then "0" else hexNatAux n
where
  hexNatAux : Nat → String
    | 0 => ""
    | m + 1 => hexNatAux ((m + 1) / 16) ++ String.singleton (hexDigit ((m + 1) % 16))
  decreasing_by exact Nat.div_lt_self (Nat.succ_pos m) (by omega)

/-- Python `f"{n:X}"`: minimal-width upper-case hex. -/
def hexNatUpper (n : Nat) : String :=
  if n = 0 then "0" else hexNatUpperAux n
where
  hexNatUpperAux : Nat → String
    | 0 => ""
    | m + 1 => hexNatUpperAux ((m + 1) / 16) ++ String.singleton (hexDigitUpper ((m + 1) % 16))
  decreasing_by exact Nat.div_lt_self (Nat.succ_pos m) (by omega)

/-! ## SHA-256 (FIPS 180-4), used as `hashlib.sha256(...).hexdigest()` -/

/-- Reduction to a 32-bit word. -/
def w32 (x : Nat) : Nat := x % 4294967296

/-- 32-bit right rotation. -/
def rotr32 (n x : Nat) : Nat := w32 ((x >>> n) ||| (x <<< (32 - n)))

def ch32 (e f g : Nat) : Nat := (e &&& f) ^^^ ((e ^^^ 0xffffffff) &&& g)

def maj32 (a b c : Nat) : Nat := (a &&& b) ^^^ (a &&& c) ^^^ (b &&& c)

def bigSigma0 (x : Nat) : Nat := rotr32 2 x ^^^ rotr32 13 x ^^^ rotr32 22 x

def bigSigma1 (x : Nat) : Nat := rotr32 6 x ^^^ rotr32 11 x ^^^ rotr32 25 x

def smallSigma0 (x : Nat) : Nat := rotr32 7 x ^^^ rotr32 18 x ^^^ (x >>> 3)

def smallSigma1 (x : Nat) : Nat := rotr32 17 x ^^^ rotr32 19 x ^^^ (x >>> 10)

/-- SHA-256 round constants (cube-root fractions of the first 64 primes). -/
def K256 : List Nat := [
  1116352408, 1899447441, 3049323471, 3921009573, 961987163,
  1508970993, 2453635748, 2870763221, 3624381080, 310598401,
  607225278, 1426881987, 1925078388, 2162078206, 2614888103,
  3248222580, 3835390401, 4022224774, 264347078, 604807628,
  770255983, 1249150122, 1555081692, 1996064986, 2554220882,
  2821834349, 2952996808, 3210313671, 3336571891, 3584528711,
  113926993, 338241895, 666307205, 773529912, 1294757372,
  1396182291, 1695183700, 1986661051, 2177026350, 2456956037,
  2730485921, 2820302411, 3259730800, 3345764771, 3516065817,
  3600352804, 4094571909, 275423344, 430227734, 506948616,
  659060556, 883997877, 958139571, 1322822218, 1537002063,
  1747873779, 1955562222, 2024104815, 2227730452, 2361852424,
  2428436474, 2756734187, 3204031479, 3329325298]

/-- Working state of one SHA-256/512 compression. -/
structure Hash8 where
  a : Nat
  b : Nat
  c : Nat
  d : Nat
  e : Nat
  f : Nat
  g : Nat
  h : Nat
deriving Repr, DecidableEq

/-- SHA-256 initial hash value (square-root fractions of the first 8 primes). -/
def initH256 : Hash8 :=
  ⟨1779033703, 3144134277, 1013904242, 2773480762,
   1359893119, 2600822924, 528734635, 1541459225⟩

/-- Message padding: `0x80`, zeros, then the 64-bit bit length. -/
def sha256Pad (msg : List Nat) : List Nat :=
  msg ++ [0x80] ++ List.replicate ((64 - ((msg.length + 9) % 64)) % 64) 0
      ++ beBytes 8 (msg.length * 8)

/-- Extend 16 message words to the 64-word SHA-256 schedule. -/
def schedule256 (ws : List Nat) : Array Nat :=
  (List.range 48).foldl
    (fun arr _ =>
      let n := arr.size
      arr.push (w32 (smallSigma1 (arr.getD (n - 2) 0) + arr.getD (n - 7) 0
        + smallSigma0 (arr.getD (n - 15) 0) + arr.getD (n - 16) 0)))
    ws.toArray

/-- One SHA-256 round on the working variables. -/
def round256 (st : Hash8) (kw : Nat × Nat) : Hash8 :=
  let t1 := w32 (st.h + bigSigma1 st.e + ch32 st.e st.f st.g + kw.1 + kw.2)
  let t2 := w32 (bigSigma0 st.a + maj32 st.a st.b st.c)
  ⟨w32 (t1 + t2), st.a, st.b, st.c, w32 (st.d + t1), st.e, st.f, st.g⟩

/-- Compress one 64-byte block into the chaining state. -/
def compress256 (st : Hash8) (block : List Nat) : Hash8 :=
  let ws := schedule256 ((chunkBy1 3 block).map beWord)
  let fin := (K256.zip ws.toList).foldl round256 st
  ⟨w32 (st.a + fin.a), w32 (st.b + fin.b), w32 (st.c + fin.c), w32 (st.d + fin.d),
   w32 (st.e + fin.e), w32 (st.f + fin.f), w32 (st.g + fin.g), w32 (st.h + fin.h)⟩

/-- SHA-256 digest of a byte list, as the 64-character lower-case hex string. -/
def sha256HexOfBytes (msg : List Nat) : String :=
  let st := (chunkBy1 63 (sha256Pad msg)).foldl compress256 initH256
  hexFixed 8 st.a ++ hexFixed 8 st.b ++ hexFixed 8 st.c ++ hexFixed 8 st.d
    ++ hexFixed 8 st.e ++ hexFixed 8 st.f ++ hexFixed 8 st.g ++ hexFixed 8 st.h

/-! ## SHA-512 (FIPS 180-4), used as `hashlib.sha512(...).hexdigest()` -/

/-- Reduction to a 64-bit word. -/
def w64 (x : Nat) : Nat := x % 18446744073709551616

/-- 64-bit right rotation. -/
def rotr64 (n x : Nat) : Nat := w64 ((x >>> n) ||| (x <<< (64 - n)))

def ch64 (e f g : Nat) : Nat := (e &&& f) ^^^ ((e ^^^ 0xffffffffffffffff) &&& g)

def bigSigma0w64 (x : Nat) : Nat := rotr64 28 x ^^^ rotr64 34 x ^^^ rotr64 39 x

def bigSigma1w64 (x : Nat) : Nat := rotr64 14 x ^^^ rotr64 18 x ^^^ rotr64 41 x

def smallSigma0w64 (x : Nat) : Nat := rotr64 1 x ^^^ rotr64 8 x ^^^ (x >>> 7)

def smallSigma1w64 (x : Nat) : Nat := rotr64 19 x ^^^ rotr64 61 x ^^^ (x >>> 6)

/-- SHA-512 round constants (cube-root fractions of the first 80 primes). -/
def K512 : List Nat := [
  4794697086780616226, 8158064640168781261, 13096744586834688815,
  16840607885511220156, 4131703408338449720, 6480981068601479193,
  10538285296894168987, 12329834152419229976, 15566598209576043074,
  1334009975649890238, 2608012711638119052, 6128411473006802146,
  8268148722764581231, 9286055187155687089, 11230858885718282805,
  13951009754708518548, 16472876342353939154, 17275323862435702243,
  1135362057144423861, 2597628984639134821, 3308224258029322869,
  5365058923640841347, 6679025012923562964, 8573033837759648693,
  10970295158949994411, 12119686244451234320, 12683024718118986047,
  13788192230050041572, 14330467153632333762, 15395433587784984357,
  489312712824947311, 1452737877330783856, 2861767655752347644,
  3322285676063803686, 5560940570517711597, 5996557281743188959,
  7280758554555802590, 8532644243296465576, 9350256976987008742,
  10552545826968843579, 11727347734174303076, 12113106623233404929,
  14000437183269869457, 14369950271660146224, 15101387698204529176,
  15463397548674623760, 17586052441742319658, 1182934255886127544,
  1847814050463011016, 2177327727835720531, 2830643537854262169,
  3796741975233480872, 4115178125766777443, 5681478168544905931,
  6601373596472566643, 7507060721942968483, 8399075790359081724,
  8693463985226723168, 9568029438360202098, 10144078919501101548,
  10430055236837252648, 11840083180663258601, 13761210420658862357,
  14299343276471374635, 14566680578165727644, 15097957966210449927,
  16922976911328602910, 17689382322260857208, 500013540394364858,
  748580250866718886, 1242879168328830382, 1977374033974150939,
  2944078676154940804, 3659926193048069267, 4368137639120453308,
  4836135668995329356, 5532061633213252278, 6448918945643986474,
  6902733635092675308, 7801388544844847127]

/-- SHA-512 initial hash value. -/
def initH512 : Hash8 :=
  ⟨7640891576956012808, 13503953896175478587,
   4354685564936845355, 11912009170470909681,
   5840696475078001361, 11170449401992604703,
   2270897969802886507, 6620516959819538809⟩

/-- Message padding for 128-byte blocks with a 128-bit length field. -/
def sha512Pad (msg : List Nat) : List Nat :=
  msg ++ [0x80] ++ List.replicate ((128 - ((msg.length + 17) % 128)) % 128) 0
      ++ beBytes 16 (msg.length * 8)

/-- Extend 16 message words to the 80-word SHA-512 schedule. -/
def schedule512 (ws : List Nat) : Array Nat :=
  (List.range 64).foldl
    (fun arr _ =>
      let n := arr.size
      arr.push (w64 (smallSigma1w64 (arr.getD (n - 2) 0) + arr.getD (n - 7) 0
        + smallSigma0w64 (arr.getD (n - 15) 0) + arr.getD (n - 16) 0)))
    ws.toArray

/-- One SHA-512 round on the working variables. -/
def round512 (st : Hash8) (kw : Nat × Nat) : Hash8 :=
  let t1 := w64 (st.h + bigSigma1w64 st.e + ch64 st.e st.f st.g + kw.1 + kw.2)
  let t2 := w64 (bigSigma0w64 st.a + maj32 st.a st.b st.c)
  ⟨w64 (t1 + t2), st.a, st.b, st.c, w64 (st.d + t1), st.e, st.f, st.g⟩

/-- Compress one 128-byte block into the chaining state. -/
def compress512 (st : Hash8) (block : List Nat) : Hash8 :=
  let ws := schedule512 ((chunkBy1 7 block).map beWord)
  let fin := (K512.zip ws.toList).foldl round512 st
  ⟨w64 (st.a + fin.a), w64 (st.b + fin.b), w64 (st.c + fin.c), w64 (st.d + fin.d),
   w64 (st.e + fin.e), w64 (st.f + fin.f), w64 (st.g + fin.g), w64 (st.h + fin.h)⟩

/-- SHA-512 digest of a byte list, as the 128-character lower-case hex string. -/
def sha512HexOfBytes (msg : List Nat) : String :=
  let st := (chunkBy1 127 (sha512Pad msg)).foldl compress512 initH512
  hexFixed 16 st.a ++ hexFixed 16 st.b ++ hexFixed 16 st.c ++ hexFixed 16 st.d
    ++ hexFixed 16 st.e ++ hexFixed 16 st.f ++ hexFixed 16 st.g ++ hexFixed 16 st.h

/-- Digest of `hashlib.sha512(s.encode('utf-8')).hexdigest()`. -/
def sha512_hash (data : String) : String := sha512HexOfBytes (utf8Encode data)

/-! ## Python-level numeric and string formatting helpers -/

/-- Python `int(x)` on a float/rational: truncation toward zero. -/
def pyInt (q : ℚ) : ℤ := if 0 ≤ q then ⌊q⌋ else ⌈q⌉

/-- Fixed-width decimal rendering of `n` (zero-padded). -/
def decFixed : Nat → Nat → String
  | 0, _ => ""
  | w + 1, n => decFixed w (n / 10) ++ String.singleton (Char.ofNat (48 + n % 10))

/-- Model of Python `f"{x:.7f}"` on the difficulty scalar: fixed 7 decimal
digits.  Python rounds the underlying IEEE-754 double half-to-even; the
stand-in rounds the exact rational half-up.  The rendered digits only feed
`_fictional_sha4091_logic`, which raises before using them, so no claim
depends on the tie-breaking rule. -/
def formatFixed7 (q : ℚ) : String :=
  let scaled : ℤ := ⌊q * 10000000 + 1 / 2⌋
  (if scaled < 0 then "-" else "")
    ++ toString (scaled.natAbs / 10000000) ++ "." ++ decFixed 7 (scaled.natAbs % 10000000)

/-- Stand-in for Python `repr(float)` (shortest round-trip decimal of an
IEEE-754 double) as it appears inside f-strings.  Exact float formatting is
outside this embedding; every occurrence below feeds a hash-input string
whose digest no claim depends on.  We render the exact rational instead. -/
def pyFloatRepr (q : ℚ) : String := toString q

/-- Unicode code points of a string (Python `str` as a sequence of `ord` values). -/
def strCodes (s : String) : List Nat := s.data.map Char.toNat

/-- Python `s.startswith(pre)`: prefix test on the character sequences.
Equivalent to `String.startsWith`, but stated on `String.data` so that it is
computable by kernel reduction. -/
def pyStartsWith (s pre : String) : Bool := pre.data.isPrefixOf s.data

/-- Python slicing `s[:n]`: the first `n` characters (all of `s` when it is
shorter).  Equivalent to `String.take`, stated on `String.data`. -/
def pyTake (s : String) (n : Nat) : String := String.mk (s.data.take n)

/-! ## `TOKEN_1_SNIFFEE/security_hasher.py` — class SecurityHasher -/

/-- Fictional SHA-4091 output length (`CONSTELLATION_HASH_LENGTH`). -/
def CONSTELLATION_HASH_LENGTH : Nat := 128

/-- Method `sha256_hash`: the Hardcover-Cryption integrity digest,
`hashlib.sha256(data.encode('utf-8')).hexdigest()`. -/
def sha256_hash (data : String) : String := sha256HexOfBytes (utf8Encode data)

/-- Method `placeholder_hash`: `"0" * 64`, the synthetic previous hash of the
Genesis block. -/
def placeholder_hash : String := String.mk (List.replicate 64 '0')

/-- Method `soft_encrypt`: `"".join(chr(ord(char) ^ 42) for char in data)`.
Python strings are modelled as their code-point sequences; `ord`/`chr` are the
identity bridges on code points, so the method is XOR with the fixed key 42
pointwise. -/
def soft_encrypt (data : List Nat) : List Nat := data.map (fun c => c ^^^ 42)

/-- Method `_fictional_sha4091_logic`.  The source first computes
`base_hash = hashlib.sha512(seed.encode('utf-8')).hexdigest()` (line 47; a pure
value, baked in below) and then executes
`random.seed(int(time.time() * 1000) % 10000)` (line 52).  `security_hasher.py`
imports only `hashlib`, `random` and `typing`, so the name `time` is unbound
and every call raises `NameError: name 'time' is not defined`; `base_hash` is
discarded.  The remainder of the body (mixing `random.getrandbits(64)` into a
second SHA-512 and truncating to `CONSTELLATION_HASH_LENGTH`) is unreachable. -/
def fictional_sha4091_logic (seed : String) : Except PyErr String :=
  let _base_hash := sha512_hash seed
  Except.error (PyErr.nameError "time")

/-- Method `constellation_lock_key`: builds the lock seed
`f"{hard_hash}-{complexity:.7f}-{reward_type}"` and delegates to
`_fictional_sha4091_logic`, whose `NameError` propagates; on (unreachable)
success the result would be `"CONSTELLATION_LOCK:" + hash.upper()`. -/
def constellation_lock_key (hard_hash : String) (complexity : ℚ) (reward_type : String) :
    Except PyErr String :=
  let lock_seed := hard_hash ++ "-" ++ formatFixed7 complexity ++ "-" ++ reward_type
  match fictional_sha4091_logic lock_seed with
  | .error e => .error e
  | .ok constellation_hash => .ok ("CONSTELLATION_LOCK:" ++ constellation_hash.toUpper)

/-! ## `TOKEN_1_SNIFFEE/wifi_analyzer.py` — data shapes

The analyzer's snapshots are driven by `random`; the reward logic receives
its `aggregate_all_node_traffic` output, so that output is modelled as an
input of the consensus functions.  Only the dictionary shape is fixed here. -/

/-- The `io_traffic_details` sub-dictionary built by `aggregate_all_node_traffic`. -/
structure IoTrafficDetails where
  packets_in : Nat
  packets_out : Nat
  total_packet_count : Nat
  simulated_latency_ms : ℚ
deriving DecidableEq, Repr

/-- One entry of the `aggregate_all_node_traffic` output list. -/
structure NodeData where
  node_address : String
  data_proof_hash : String
  io_traffic_details : IoTrafficDetails
deriving DecidableEq, Repr

/-! ## `TOKEN_1_SNIFFEE/favorite_seed_generator.py` — class FavoriteSeedGenerator -/

/-- `FAVORITE_ALGORITHM_FACTORS` mapping (insertion order preserved). -/
def FAVORITE_ALGORITHM_FACTORS : List (String × ℚ) :=
  [("HighThroughput_SHA512", 3 / 2), ("LowLatency_SHA256", 5 / 4),
   ("DenseTopology_SCRAMBLE", 7 / 4), ("RandomizedNoise_XOR", 2)]

/-- `TARGET_SEED_LENGTH` (hexadecimal characters of the target seed). -/
def TARGET_SEED_LENGTH : Nat := 64

/-- The immutable seed frame dictionary built by `_generate_new_seed_frame`. -/
structure SeedFrame where
  seed_timestamp : ℤ
  seed_frame_id : String
  favorite_algorithm : String
  complexity_factor : ℚ
  target_seed_transaction : String
  constellation_lock_signature : String
deriving DecidableEq, Repr

/-- Method `_generate_complex_seed`.  `random.choice` supplies `favorite_key`
(an input here), the wall clock and `random.getrandbits(128)` are the inputs
`t` and `randbits`. -/
def generate_complex_seed (favorite_key : String) (t : ℚ) (randbits : Nat) : String :=
  let factor := ((FAVORITE_ALGORITHM_FACTORS.lookup favorite_key).getD 0)
  let complex_input := favorite_key ++ "-" ++ pyFloatRepr (t * factor) ++ "-" ++ toString randbits
  pyTake (sha512_hash complex_input) TARGET_SEED_LENGTH

/-- Method `_generate_constellation_lock_key` of the seed generator:
`sha256(f"{target_seed}-{int(time.time() / 3600)}")` (hourly block time). -/
def seedgen_constellation_lock_key (target_seed : String) (t : ℚ) : String :=
  sha256_hash (target_seed ++ "-" ++ toString (pyInt (t / 3600)))

/-- Method `_generate_new_seed_frame`.  The randomized favorite choice, the
three wall-clock readings and the 128 random bits are explicit inputs. -/
def generate_new_seed_frame (favorite_key : String) (t_complex : ℚ) (randbits : Nat)
    (t_stamp t_lockkey : ℚ) : SeedFrame :=
  let target_seed := generate_complex_seed favorite_key t_complex randbits
  { seed_timestamp := pyInt t_stamp,
    seed_frame_id := pyTake (sha256_hash target_seed) 16,
    favorite_algorithm := favorite_key,
    complexity_factor := (FAVORITE_ALGORITHM_FACTORS.lookup favorite_key).getD 0,
    target_seed_transaction := target_seed,
    constellation_lock_signature := seedgen_constellation_lock_key target_seed t_lockkey }

/-! ## `TOKEN_1_SNIFFEE/sdb_reward_logic.py` — class SDBRewardLogic -/

/-- Mutable state of an `SDBRewardLogic` instance together with the seed frame
owned by its `FavoriteSeedGenerator` (`_current_seed_frame`). -/
structure SDBState where
  seed_frame : SeedFrame
  last_reward_time : ℚ
deriving DecidableEq, Repr

/-- Method `generate_favorite_seed` of the generator: returns the immutable
target seed of the current frame, without modifying anything. -/
def generate_favorite_seed (st : SDBState) : String :=
  st.seed_frame.target_seed_transaction

/-- Method `refresh_seed` of the generator: replaces the current frame with a
freshly generated one.  Defined in the source, but never called anywhere in
the repository (its docstring says the Consensus Manager should call it after
a successful SDB block stamp; `consensus_manager.py` does not). -/
def refresh_seed (st : SDBState) (favorite_key : String) (t_complex : ℚ) (randbits : Nat)
    (t_stamp t_lockkey : ℚ) : SDBState :=
  { st with seed_frame := generate_new_seed_frame favorite_key t_complex randbits t_stamp t_lockkey }

def SDB_REWARD_AMOUNT : Nat := 300

def SDB_CYCLE_TIME_SECONDS : Nat := 30 * 60

/-- `MATCH_DIFFICULTY_LENGTH`: number of target-seed characters a proof hash
must match. -/
def MATCH_DIFFICULTY_LENGTH : Nat := 5

/-- Method `_find_seed_match_winner`: scan `eligible_nodes_data` in order and
return the first node whose `data_proof_hash` starts with
`target_seed[:MATCH_DIFFICULTY_LENGTH]`. -/
def find_seed_match_winner (eligible_nodes_data : List NodeData) (target_seed : String) :
    Option NodeData :=
  eligible_nodes_data.find?
    (fun node_data => pyStartsWith node_data.data_proof_hash (pyTake target_seed MATCH_DIFFICULTY_LENGTH))

/-- The winner dictionary returned by `run_sdb_consensus`. -/
structure SDBRewardData where
  winner_address : String
  reward_amount : Nat
  binary_transit_no : Nat
  seedframe : String
  reward_type : String
  proof_data : NodeData
deriving DecidableEq, Repr

/-- Method `run_sdb_consensus`.  `t_gate` and `t_update` are the two
`time.time()` readings (line 59 and line 82); `eligible_nodes_data` is the
analyzer's `aggregate_all_node_traffic` output for `all_active_nodes`.
Returns the optional winner dictionary and the updated instance state. -/
def run_sdb_consensus (st : SDBState) (t_gate t_update : ℚ) (all_active_nodes : List String)
    (eligible_nodes_data : List NodeData) : Option SDBRewardData × SDBState :=
  if t_gate - st.last_reward_time < (SDB_CYCLE_TIME_SECONDS : ℚ) then (none, st)
  else if all_active_nodes.isEmpty then (none, st)
  else
    let target_seed := generate_favorite_seed st
    match find_seed_match_winner eligible_nodes_data target_seed with
    | none => (none, st)
    | some winner_data =>
      (some { winner_address := winner_data.node_address,
              reward_amount := SDB_REWARD_AMOUNT,
              binary_transit_no := winner_data.io_traffic_details.total_packet_count,
              seedframe := target_seed,
              reward_type := "@SNIFFEE-DEBUGEE",
              proof_data := winner_data },
       { st with last_reward_time := t_update })

/-! ## `TOKEN_2_BTZCY/ping_nmap_verifier.py` — class PingNmapVerifier -/

/-- `MINIMUM_VERIFICATION_HASH_DIFFICULTY`: required hash prefix. -/
def MINIMUM_VERIFICATION_HASH_DIFFICULTY : String := "000"

/-- The `while True` body of `_generate_proof_of_verification_work`, starting
from the given nonce: hash `raw_data + str(nonce)`; return the hash if it
meets the difficulty target; otherwise increment the nonce and, if it now
exceeds 10000 (the safety break), return the typed degraded result
`"NonceExceeded-" + hash_result[:10]`; else continue. -/
def powLoop (raw_data : String) (nonce : Nat) : String :=
  let attempt := raw_data ++ toString nonce
  let hash_result := sha256_hash attempt
  if pyStartsWith hash_result MINIMUM_VERIFICATION_HASH_DIFFICULTY then hash_result
  else if nonce + 1 > 10000 then "NonceExceeded-" ++ pyTake hash_result 10
  else powLoop raw_data (nonce + 1)
termination_by 10001 - nonce

/-- Method `_generate_proof_of_verification_work` (nonce starts at 0). -/
def generate_proof_of_verification_work (raw_data : String) : String :=
  powLoop raw_data 0

/-- The verification report dictionary returned by `verify_node_integrity`.
Only the fields read by the embedded consensus code are modelled
(`btz_reward_logic.py` reads `address`, `is_verified` and
`verification_hash_proof`; the nested ping/nmap sub-dictionaries, the
timestamp and the echoed difficulty target are never consumed).  The reports
themselves are randomized (`random.random()` connectivity rolls), so
`bulk_verify_nodes` output is an input of the consensus function. -/
structure VerReport where
  address : String
  is_verified : Bool
  verification_hash_proof : String
deriving DecidableEq, Repr

/-! ## `TOKEN_2_BTZCY/btz_reward_logic.py` — class BTZRewardLogic -/

def BTZ_REWARD_AMOUNT : Nat := 150

def BTZ_CYCLE_TIME_SECONDS : Nat := 5 * 60

/-- Mutable state of a `BTZRewardLogic` instance. -/
structure BTZState where
  last_reward_time : ℚ
deriving DecidableEq, Repr

/-- One entry of the `eligible_nodes` list built inside `run_btz_consensus`:
a copy of the traffic dictionary stamped with the verification results. -/
structure EligibleNode where
  node_address : String
  data_proof_hash : String
  io_traffic_details : IoTrafficDetails
  is_verified : Bool
  verification_hash_proof : String
  address : String
deriving DecidableEq, Repr

/-- The join loop of `run_btz_consensus` (source lines 97-107): for each
traffic entry, find the first report with a matching address (`next(...)`);
keep the entry, stamped with the verification fields, only when such a report
exists and is verified. -/
def joinEligible (raw_traffic_data : List NodeData) (verified_reports : List VerReport) :
    List EligibleNode :=
  raw_traffic_data.filterMap (fun traffic =>
    match verified_reports.find? (fun r => r.address == traffic.node_address) with
    | some report =>
      if report.is_verified then
        some { node_address := traffic.node_address,
               data_proof_hash := traffic.data_proof_hash,
               io_traffic_details := traffic.io_traffic_details,
               is_verified := report.is_verified,
               verification_hash_proof := report.verification_hash_proof,
               address := traffic.node_address }
      else none
    | none => none)

/-- Stable insertion for a descending order: the new element goes after every
element whose key is greater than or equal to its own.  This reproduces the
stability of Python `sorted(..., reverse=True)`: entries with equal keys keep
their original relative order. -/
def insertDescBy (key : EligibleNode → Nat) (x : EligibleNode) :
    List EligibleNode → List EligibleNode
  | [] => [x]
  | y :: ys => if key y ≥ key x then y :: insertDescBy key x ys else x :: y :: ys

/-- Model of `sorted(data, key=..., reverse=True)` (stable, descending):
left-to-right insertion keeps equal-keyed entries in their original order. -/
def sortDescBy (key : EligibleNode → Nat) (l : List EligibleNode) : List EligibleNode :=
  l.foldl (fun acc x => insertDescBy key x acc) []

/-- Method `_determine_highest_traffic_winner` (source lines 27-50): sort the
input descending by `total_packet_count`, take the head, and return it unless
the safety check finds it unverified.  Defined on the class but never reached:
the call site in `run_btz_consensus` refers to a differently named method. -/
def determine_highest_traffic_winner (verified_traffic_data : List EligibleNode) :
    Option EligibleNode :=
  if verified_traffic_data.isEmpty then none
  else
    match sortDescBy (fun x => x.io_traffic_details.total_packet_count) verified_traffic_data with
    | [] => none
    | winner :: _ => if winner.is_verified then some winner else none

/-- The `Human Ethical Choice` challenge dictionary. -/
structure EthicalChallenge where
  challenge_id : String
  expiry_timestamp : ℤ
  reward_status : String
  ethical_proof_hash : String
deriving DecidableEq, Repr

/-- Method `_create_ethical_choice_challenge`.  The two `time.time()` readings
and `random.getrandbits(128)` are the inputs `t_id`, `t_exp` and `randbits`. -/
def create_ethical_choice_challenge (winner_address : String) (packet_count : Nat)
    (t_id t_exp : ℚ) (randbits : Nat) : EthicalChallenge :=
  { challenge_id :=
      sha256_hash (winner_address ++ "-" ++ toString packet_count ++ "-" ++ pyFloatRepr t_id),
    expiry_timestamp := pyInt t_exp + (BTZ_CYCLE_TIME_SECONDS : ℤ),
    reward_status := "PENDING_ACCEPTANCE",
    ethical_proof_hash := "ETHICAL_CONSENT_0x" ++ hexNatUpper randbits }

/-- The winner dictionary returned by `run_btz_consensus`. -/
structure BTZRewardData where
  winner_address : String
  reward_amount : Nat
  binary_transit_no : Nat
  seedframe : String
  reward_type : String
  proof_data : EligibleNode
  ethical_challenge : EthicalChallenge
deriving DecidableEq, Repr

/-- Method `run_btz_consensus` (source lines 71-138).  `t_gate` is the
`time.time()` reading of the time gate; `raw_traffic_data` and
`verified_reports` are the analyzer and verifier outputs for
`all_active_nodes`; `t_chal_id`, `t_chal_exp`, `randbits` and `t_update` feed
the (unreachable) challenge creation and timer update.  Line 111 calls
`self._determine_highest_traffic_node(eligible_nodes)`; `BTZRewardLogic` has
no attribute of that name (the method defined at line 27 is
`_determine_highest_traffic_winner`), so the lookup raises `AttributeError`
and the run propagates it, leaving the state untouched. -/
def run_btz_consensus (st : BTZState) (t_gate : ℚ) (all_active_nodes : List String)
    (raw_traffic_data : List NodeData) (verified_reports : List VerReport)
    (t_chal_id t_chal_exp t_update : ℚ) (randbits : Nat) :
    Except PyErr (Option BTZRewardData) × BTZState :=
  if t_gate - st.last_reward_time < (BTZ_CYCLE_TIME_SECONDS : ℚ) then (.ok none, st)
  else if all_active_nodes.isEmpty then (.ok none, st)
  else
    let _eligible_nodes := joinEligible raw_traffic_data verified_reports
    let winner_call : Except PyErr (Option EligibleNode) :=
      .error (.attributeError "_determine_highest_traffic_node")
    match winner_call with
    | .error e => (.error e, st)
    | .ok none => (.ok none, st)
    | .ok (some winner_data) =>
      -- Unreachable continuation, embedded from source lines 117-138.
      let winner_address := winner_data.address
      let packet_count := winner_data.io_traffic_details.total_packet_count
      let challenge_payload :=
        create_ethical_choice_challenge winner_address packet_count t_chal_id t_chal_exp randbits
      (.ok (some { winner_address := winner_address,
                   reward_amount := BTZ_REWARD_AMOUNT,
                   binary_transit_no := packet_count,
                   seedframe := challenge_payload.challenge_id,
                   reward_type := "BTZCY-SYSTEM",
                   proof_data := winner_data,
                   ethical_challenge := challenge_payload }),
       { st with last_reward_time := t_update })

/-! ## `CORE_SYSTEMS/block_stamping_engine.py` — class BlockStampingEngine -/

/-- The block dictionary as assembled by `_prepare_block_data` (the two
cryptographic fields are added afterwards by `stamp_new_block`).  Hyphenated
Python keys (`BINARY-TRANSIT-NO`, `SOFT-ENCRYPTER`) are spelled with
underscores as Lean field names; the JSON serialization below restores the
exact source keys. -/
structure BlockData where
  BLOCK_INDEX : Nat
  TIME : String
  TIMESTAMP : ℚ
  PREVIOUS_HASH : String
  COMPLEXITY_LEVEL : ℚ
  WINNERS_ADDRESSES : String
  REWARD_CHAIN : String
  REWARD_AMOUNT : ℤ
  SEEDFRAME : String
  BINARY_TRANSIT_NO : ℤ
  SOFT_ENCRYPTER : List Nat
deriving DecidableEq, Repr

/-- A fully stamped block: the prepared data plus `HARDCOVER_CRYPTION` and
`CONSTELLATION-SECURITY`. -/
structure Block extends BlockData where
  HARDCOVER_CRYPTION : String
  CONSTELLATION_SECURITY : String
deriving DecidableEq, Repr

/-- Mutable state of a `BlockStampingEngine` instance. -/
structure EngineState where
  blockchain : List Block
  current_complexity : ℚ
deriving DecidableEq, Repr

/-- Method `update_complexity`. -/
def engine_update_complexity (st : EngineState) (new_complexity : ℚ) : EngineState :=
  { st with current_complexity := new_complexity }

/-- The two keys of the `_get_last_block` result that `stamp_new_block`
reads (on a non-empty chain the method returns the whole last block; only
`HARDCOVER_CRYPTION` and `BLOCK_INDEX` are ever consumed). -/
structure LastBlockRef where
  HARDCOVER_CRYPTION : String
  BLOCK_INDEX : Nat
deriving DecidableEq, Repr

/-- Method `_get_last_block`: the last stamped block, or the safe fallback
structure (placeholder hash of 64 zeros, index 0) on an empty chain. -/
def get_last_block (st : EngineState) : LastBlockRef :=
  match st.blockchain.getLast? with
  | none => { HARDCOVER_CRYPTION := placeholder_hash, BLOCK_INDEX := 0 }
  | some b => { HARDCOVER_CRYPTION := b.HARDCOVER_CRYPTION, BLOCK_INDEX := b.BLOCK_INDEX }

/-- Method `_prepare_block_data`.  The `time.time()` reading and its
`time.ctime` rendering are the inputs `timestamp_s` and `ctime_str`. -/
def prepare_block_data (complexity : ℚ) (index : Nat) (previous_hash : String)
    (miner_address reward_type : String) (reward_amount binary_transit_no : ℤ)
    (seedframe : String) (timestamp_s : ℚ) (ctime_str : String) : BlockData :=
  { BLOCK_INDEX := index,
    TIME := ctime_str,
    TIMESTAMP := timestamp_s,
    PREVIOUS_HASH := previous_hash,
    COMPLEXITY_LEVEL := complexity,
    WINNERS_ADDRESSES := miner_address,
    REWARD_CHAIN := reward_type,
    REWARD_AMOUNT := reward_amount,
    SEEDFRAME := seedframe,
    BINARY_TRANSIT_NO := binary_transit_no,
    SOFT_ENCRYPTER := soft_encrypt (strCodes (miner_address ++ reward_type)) }

/-- JSON escape of one code point, following CPython `json.dumps` defaults
(`ensure_ascii=True`): quote, backslash and the short escapes, `\uXXXX` for
everything outside the printable ASCII range, surrogate pairs beyond the BMP. -/
def jsonEscapeCode (c : Nat) : String :=
  if c = 34 then "\\\""
  else if c = 92 then "\\\\"
  else if c = 10 then "\\n"
  else if c = 13 then "\\r"
  else if c = 9 then "\\t"
  else if c = 8 then "\\b"
  else if c = 12 then "\\f"
  else if c < 32 then "\\u" ++ hexFixed 4 c
  else if c ≤ 126 then String.singleton (Char.ofNat c)
  else if c ≤ 0xffff then "\\u" ++ hexFixed 4 c
  else
    "\\u" ++ hexFixed 4 (0xd800 + ((c - 0x10000) >>> 10))
      ++ "\\u" ++ hexFixed 4 (0xdc00 + ((c - 0x10000) &&& 0x3ff))

/-- JSON string literal for a sequence of code points. -/
def jsonStrOfCodes (codes : List Nat) : String :=
  "\"" ++ String.join (codes.map jsonEscapeCode) ++ "\""

/-- JSON string literal for an ASCII-range Lean string. -/
def jsonStr (s : String) : String := jsonStrOfCodes (strCodes s)

/-- `json.dumps(new_block, sort_keys=True)`: the canonical serialization over
which the integrity hash is computed.  Keys appear in sorted (code point)
order with the default `", "` / `": "` separators. -/
def serialize_block (b : BlockData) : String :=
  "\x7b\"BINARY-TRANSIT-NO\": " ++ toString b.BINARY_TRANSIT_NO
    ++ ", \"BLOCK_INDEX\": " ++ toString b.BLOCK_INDEX
    ++ ", \"COMPLEXITY_LEVEL\": " ++ pyFloatRepr b.COMPLEXITY_LEVEL
    ++ ", \"PREVIOUS_HASH\": " ++ jsonStr b.PREVIOUS_HASH
    ++ ", \"REWARD_AMOUNT\": " ++ toString b.REWARD_AMOUNT
    ++ ", \"REWARD_CHAIN\": " ++ jsonStr b.REWARD_CHAIN
    ++ ", \"SEEDFRAME\": " ++ jsonStr b.SEEDFRAME
    ++ ", \"SOFT-ENCRYPTER\": " ++ jsonStrOfCodes b.SOFT_ENCRYPTER
    ++ ", \"TIME\": " ++ jsonStr b.TIME
    ++ ", \"TIMESTAMP\": " ++ pyFloatRepr b.TIMESTAMP
    ++ ", \"WINNERS_ADDRESSES\": " ++ jsonStr b.WINNERS_ADDRESSES
    ++ "\x7d"

/-- Method `stamp_new_block` (source lines 81-123): read the last block,
link `PREVIOUS_HASH` to its `HARDCOVER_CRYPTION`, prepare the block data,
apply the SHA-256 Hardcover-Cryption over the canonical serialization, then
apply the Constellation-Security lock.  The lock call raises `NameError`
(see `fictional_sha4091_logic`), so the method never returns a block; the
`.ok` branch embeds the unreachable completion.  The `is_genesis` parameter
is accepted and ignored, as in the source. -/
def stamp_new_block (st : EngineState) (miner_address reward_type : String)
    (reward_amount binary_transit_no : ℤ) (seedframe : String) (_is_genesis : Bool)
    (timestamp_s : ℚ) (ctime_str : String) : Except PyErr Block :=
  let last_block := get_last_block st
  let index := last_block.BLOCK_INDEX + 1
  let previous_hash := last_block.HARDCOVER_CRYPTION
  let new_block := prepare_block_data st.current_complexity index previous_hash
    miner_address reward_type reward_amount binary_transit_no seedframe timestamp_s ctime_str
  let block_content_string := serialize_block new_block
  let hard_hash := sha256_hash block_content_string
  match constellation_lock_key hard_hash st.current_complexity reward_type with
  | .error e => .error e
  | .ok constellation_lock =>
    .ok { toBlockData := new_block,
          HARDCOVER_CRYPTION := hard_hash,
          CONSTELLATION_SECURITY := constellation_lock }

/-! ## ` UTILITIES_AND_SECURITY/wallet_address_handler.py` — roster -/

/-- The conceptual node database loaded by `_load_initial_nodes`
(address, public key), in insertion order. -/
def registered_nodes : List (String × String) :=
  [("0xBTCZCY_ETHICAL_COMPUTATION_ADDRESS_7E3F", "PUBKEY_MAIN_7E3F"),
   ("0xSNIF_HIGH_VALUE_NODE_A1B2", "PUBKEY_SNIFF_A1B2"),
   ("0xPACKET_LOAD_MASTER_C3D4", "PUBKEY_LOAD_C3D4"),
   ("0xCONSTELLATION_MINER_X9Y0", "PUBKEY_LOCK_X9Y0"),
   ("0xHIGH_IO_FLOW_NODE_F5G6", "PUBKEY_FLOW_F5G6"),
   ("0xRANDOM_SEED_MATCH_H7I8", "PUBKEY_SEED_H7I8")]

/-- Method `get_all_active_addresses`: `list(self.registered_nodes.keys())`
(Python dictionaries preserve insertion order). -/
def get_all_active_addresses : List String := registered_nodes.map Prod.fst

/-! ## `main_node_runner.py` — class BlockchainNodeRunner

The runner's `__init__` itself raises `NameError` (`WalletAddressHandler` and
`DataLoggerOutput` are referenced without being imported), so the program
never reaches `run_node`.  The tick model below embeds the body of the
`while True` loop of `run_node` (source lines 80-116) for a hypothetically
constructed runner, which is the only reading under which the scheduler's
behaviour is observable at all.  Inside the tick, the collaborator calls that
the source makes are themselves ill-formed, and those failures are part of
the embedding (see the call stubs). -/

def INITIAL_COMPLEXITY : ℚ := 1 / 10000000

def COMPLEXITY_GROWTH_INCREMENT : ℚ := 1 / 10000000

def SDB_REWARD_CYCLE : Nat := 30 * 60

def BTZ_REWARD_CYCLE : Nat := 5 * 60

/-- Mutable state of a `BlockchainNodeRunner` instance: its own chain and
complexity, its two cycle timers, and the `BlockStampingEngine` it owns
(constructed with `complexity=0.1`; the `chain=List` constructor argument of
the source passes the `typing.List` object itself, another slip, but the
engine state is never consulted because every stamp call fails earlier). -/
structure RunnerState where
  blockchain : List Block
  current_complexity : ℚ
  engine : EngineState
  last_sdb_reward_time : ℚ
  last_btz_reward_time : ℚ
deriving DecidableEq, Repr

/-- Method `_update_complexity`: the Progressive Eternity rule on the
runner's own `current_complexity` field (the engine's copy is not touched;
`engine.update_complexity` is never called anywhere in the repository). -/
def runner_update_complexity (st : RunnerState) : RunnerState :=
  { st with current_complexity := st.current_complexity + COMPLEXITY_GROWTH_INCREMENT }

/-- The shape of the winner dictionary a `ConsensusManager` would return
(`winner_address`, `reward_amount`, `seedframe`, and for the BTZ cycle a
`packet_count`).  Only ever produced in dead code. -/
structure ManagerRewardData where
  winner_address : String
  reward_amount : Nat
  seedframe : String
deriving DecidableEq, Repr

/-- The call `self.consensus_manager.run_sdb_consensus(active_nodes)`
(source line 87).  `ConsensusManager.run_sdb_consensus` takes no parameter
besides `self`, so the call raises `TypeError` before any consensus logic
runs.  (Independently, no `ConsensusManager` can be constructed at all: its
`__init__` references the undefined name `SniffRewardLogic`.) -/
def manager_run_sdb_consensus_call (_active_nodes : List String) :
    Except PyErr (Option ManagerRewardData) :=
  .error (.typeError "run_sdb_consensus() takes 1 positional argument but 2 were given")

/-- The call `self.consensus_manager.run_btz_consensus(active_nodes)`
(source line 100); same arity mismatch as the SDB call. -/
def manager_run_btz_consensus_call (_active_nodes : List String) :
    Except PyErr (Option ManagerRewardData) :=
  .error (.typeError "run_btz_consensus() takes 1 positional argument but 2 were given")

/-- The calls `self.stamping_engine.stamp_new_block(chain=..., reward_data=...,
complexity=..., wallet_handler=...)` (source lines 89-94 and 102-107).
`stamp_new_block` has no parameter of any of those names, so the call raises
`TypeError` at the call boundary; the intended complexity hand-off never
reaches the engine. -/
def runner_stamp_call (_chain : List Block) (_reward_data : ManagerRewardData)
    (_complexity : ℚ) : Except PyErr Block :=
  .error (.typeError "stamp_new_block() got an unexpected keyword argument 'chain'")

/-- The call `self.stamping_engine.stamp_new_block(miner_address=any)` made by
`_create_genesis_block` (source line 64): the required positional parameters
`reward_type`, `reward_amount` and `binary_transit_no` are missing, so genesis
creation raises `TypeError` and nothing is appended to the chain. -/
def create_genesis_block_call : Except PyErr Block :=
  .error (.typeError "stamp_new_block() missing 3 required positional arguments")

/-- Observable trace of one scheduler tick: which consensus calls were made,
whether the surrounding `try`/`except` caught an exception, and the sleep the
tick ends with (1 second normally, 10 seconds in the `except` handler). -/
structure TickTrace where
  sdb_consensus_called : Bool
  btz_consensus_called : Bool
  caught : Option PyErr
  sleep_seconds : Nat
deriving DecidableEq, Repr

/-- The BTZ half of the tick (source lines 99-109), reached only when the SDB
half completed without raising.  `sdb_called` records whether the SDB branch
invoked its consensus call earlier in the same tick. -/
def runner_tick_btz (st : RunnerState) (t : ℚ) (sdb_called : Bool) :
    RunnerState × TickTrace :=
  if (BTZ_REWARD_CYCLE : ℚ) ≤ t - st.last_btz_reward_time then
    match manager_run_btz_consensus_call get_all_active_addresses with
    | .error e => (st, ⟨sdb_called, true, some e, 10⟩)
    | .ok none => (st, ⟨sdb_called, true, none, 1⟩)
    | .ok (some reward_data) =>
      -- Unreachable: stamp (result discarded), advance complexity, reset timer.
      match runner_stamp_call st.blockchain reward_data st.current_complexity with
      | .error e => (st, ⟨sdb_called, true, some e, 10⟩)
      | .ok _new_block =>
        ({ runner_update_complexity st with last_btz_reward_time := t },
         ⟨sdb_called, true, none, 1⟩)
  else (st, ⟨sdb_called, false, none, 1⟩)

/-- One tick of `run_node` (the body of the `while True` loop, source lines
80-116): the whole tick sits in a single `try`, whose `except` handler logs
and sleeps 10 seconds.  An exception raised in the SDB half therefore skips
the BTZ half of the same tick. -/
def runner_tick (st : RunnerState) (t : ℚ) : RunnerState × TickTrace :=
  if (SDB_REWARD_CYCLE : ℚ) ≤ t - st.last_sdb_reward_time then
    match manager_run_sdb_consensus_call get_all_active_addresses with
    | .error e => (st, ⟨true, false, some e, 10⟩)
    | .ok none => runner_tick_btz st t true
    | .ok (some reward_data) =>
      -- Unreachable: stamp (result discarded), advance complexity, reset timer.
      match runner_stamp_call st.blockchain reward_data st.current_complexity with
      | .error e => (st, ⟨true, false, some e, 10⟩)
      | .ok _new_block =>
        runner_tick_btz { runner_update_complexity st with last_sdb_reward_time := t } t true
  else runner_tick_btz st t false

/-! ## Concrete fixtures used by the claim evaluations -/

/-- A concrete seed frame whose target seed begins with `abcde`. -/
def sampleFrame : SeedFrame :=
  { seed_timestamp := 0, seed_frame_id := "frameid0", favorite_algorithm := "RandomizedNoise_XOR",
    complexity_factor := 2, target_seed_transaction := "abcdef0123456789",
    constellation_lock_signature := "locksig0" }

/-- SDB logic state at timer value 0 holding `sampleFrame`. -/
def sdbState0 : SDBState := { seed_frame := sampleFrame, last_reward_time := 0 }

/-- A node whose proof hash matches the `abcde` target prefix. -/
def nodeMatch : NodeData :=
  { node_address := "0xSNIF_HIGH_VALUE_NODE_A1B2", data_proof_hash := "abcde999",
    io_traffic_details := { packets_in := 10, packets_out := 20,
                            total_packet_count := 30, simulated_latency_ms := 50 } }

/-- A node whose proof hash does not match the `abcde` target prefix. -/
def nodeMiss : NodeData :=
  { node_address := "0xPACKET_LOAD_MASTER_C3D4", data_proof_hash := "zzzzz1234",
    io_traffic_details := { packets_in := 1, packets_out := 2,
                            total_packet_count := 3, simulated_latency_ms := 9 } }

/-- Highest-traffic node (packet total 5000). -/
def nodeHigh : NodeData :=
  { node_address := "0xPACKET_LOAD_MASTER_C3D4", data_proof_hash := "ffff0000",
    io_traffic_details := { packets_in := 2500, packets_out := 2500,
                            total_packet_count := 5000, simulated_latency_ms := 20 } }

/-- Next-highest-traffic node (packet total 4999). -/
def nodeNext : NodeData :=
  { node_address := "0xHIGH_IO_FLOW_NODE_F5G6", data_proof_hash := "eeee1111",
    io_traffic_details := { packets_in := 2499, packets_out := 2500,
                            total_packet_count := 4999, simulated_latency_ms := 25 } }

/-- Verifier report failing `nodeHigh`. -/
def reportHighUnverified : VerReport :=
  { address := "0xPACKET_LOAD_MASTER_C3D4", is_verified := false,
    verification_hash_proof := "000aaaaaaa" }

/-- Verifier report passing `nodeNext`. -/
def reportNextVerified : VerReport :=
  { address := "0xHIGH_IO_FLOW_NODE_F5G6", is_verified := true,
    verification_hash_proof := "000bbbbbbb" }

/-- The eligible entry the join produces for `nodeNext`. -/
def eligibleNext : EligibleNode :=
  { node_address := "0xHIGH_IO_FLOW_NODE_F5G6", data_proof_hash := "eeee1111",
    io_traffic_details := { packets_in := 2499, packets_out := 2500,
                            total_packet_count := 4999, simulated_latency_ms := 25 },
    is_verified := true, verification_hash_proof := "000bbbbbbb",
    address := "0xHIGH_IO_FLOW_NODE_F5G6" }

/-- An empty-chain engine state with the constructor complexity `0.1` used by
`main_node_runner.py`. -/
def engineState0 : EngineState := { blockchain := [], current_complexity := 1 / 10 }

/-- Runner state with both cycle timers at 0, as after a (hypothetical)
genesis stamp at time 0. -/
def runnerState0 : RunnerState :=
  { blockchain := [], current_complexity := INITIAL_COMPLEXITY, engine := engineState0,
    last_sdb_reward_time := 0, last_btz_reward_time := 0 }

/-- Runner state whose SDB timer is fresh at time 1000 while the BTZ timer is
long elapsed. -/
def runnerState1 : RunnerState :=
  { blockchain := [], current_complexity := INITIAL_COMPLEXITY, engine := engineState0,
    last_sdb_reward_time := 1000, last_btz_reward_time := 0 }

/-! ## Claim theorems -/

/-- C1: the claim asserts that chains produced by `stamp_new_block` satisfy
`block[i].PREVIOUS_HASH = block[i-1].HARDCOVER_CRYPTION`, with a 64-zero
previous hash for the first block on an empty chain.  The linking assignments
in the source are exactly that, and the empty-chain fallback previous hash is
indeed 64 zero characters (second conjunct); but `stamp_new_block` can never
return a block: its Constellation-Security step raises `NameError` because
`security_hasher.py` never imports `time` (first conjunct), so no chain is
ever produced. -/
theorem c1_stamp_new_block_always_raises :
    stamp_new_block engineState0 "0xSNIF_HIGH_VALUE_NODE_A1B2" "@SNIFFEE-DEBUGEE"
        300 0 "0" false 1000 "Thu Jan  1 00:16:40 1970"
      = .error (.nameError "time")
    ∧ (get_last_block engineState0).HARDCOVER_CRYPTION = String.mk (List.replicate 64 '0') :=
  ⟨rfl, rfl⟩

/-- C2 counterexample: the claim states that `constellation_lock_key` returns
equal strings on two evaluations of the same input with no side effects; in
fact it returns no string at all — every call raises
`NameError: name 'time' is not defined`.  Concrete refuting input shown. -/
theorem c2_counterexample_lock_raises :
    constellation_lock_key "deadbeef" 1 "@SNIFFEE-DEBUGEE"
      = Except.error (PyErr.nameError "time") :=
  rfl

/-- C2 amended: `sha256_hash` is a pure deterministic function of its input
(two evaluations agree), while `constellation_lock_key` never returns a
string: by its own design it seeds the global random generator from the wall
clock (explicitly non-deterministic), and as implemented every call raises
`NameError` because `time` is not imported in `security_hasher.py`. -/
theorem c2_sha256_deterministic_lock_never_returns :
    (∀ s : String, sha256_hash s = sha256_hash s)
    ∧ ∀ (h : String) (c : ℚ) (r : String),
        constellation_lock_key h c r = Except.error (PyErr.nameError "time") :=
  ⟨fun _ => rfl, fun _ _ _ => rfl⟩

/-- C3: a winning Cycle-A run returns a winner yet leaves the seed frame
untouched — `run_sdb_consensus` never calls `refresh_seed` (no caller in the
repository does), contradicting the claim that every win regenerates the
SeedFrame before the run returns. -/
theorem c3_winning_run_keeps_seed_frame :
    (run_sdb_consensus sdbState0 2000 2000 ["0xSNIF_HIGH_VALUE_NODE_A1B2"] [nodeMatch]).1.isSome
      = true
    ∧ (run_sdb_consensus sdbState0 2000 2000 ["0xSNIF_HIGH_VALUE_NODE_A1B2"] [nodeMatch]).2.seed_frame
      = sdbState0.seed_frame := by
  have hgate : ¬ ((2000 : ℚ) - sdbState0.last_reward_time < (SDB_CYCLE_TIME_SECONDS : ℚ)) := by
    norm_num [sdbState0, SDB_CYCLE_TIME_SECONDS]
  constructor <;>
    · unfold run_sdb_consensus
      rw [if_neg hgate]
      rfl

/-- C10: the soft encryption layer is an involution — XOR with the fixed key
42 applied twice is the identity on every code-point sequence — and hence the
`SOFT-ENCRYPTER` field stored by `_prepare_block_data` decrypts back to
`str(miner_address) + reward_type`. -/
theorem c10_soft_encrypt_involution :
    (∀ data : List Nat, soft_encrypt (soft_encrypt data) = data)
    ∧ ∀ (complexity : ℚ) (index : Nat) (prev miner rt : String) (ra bt : ℤ)
        (sf : String) (ts : ℚ) (ct : String),
        soft_encrypt ((prepare_block_data complexity index prev miner rt ra bt sf ts ct).SOFT_ENCRYPTER)
          = strCodes (miner ++ rt) := by
  have key : ∀ data : List Nat, soft_encrypt (soft_encrypt data) = data := by
    intro data
    simp only [soft_encrypt, List.map_map]
    have : ((fun c => c ^^^ 42) ∘ fun c : Nat => c ^^^ 42) = id := by
      funext c
      simp [Nat.xor_assoc]
    rw [this, List.map_id]
  exact ⟨key, fun complexity index prev miner rt ra bt sf ts ct => key _⟩

/-- Whether a consensus-run outcome carries a winner (a normal return of a
non-`None` dictionary). -/
def exceptHasWinner : Except PyErr (Option BTZRewardData) → Bool
  | .ok (some _) => true
  | _ => false

/-- C4: for Cycle A, the embedded `run_sdb_consensus` sets `last_reward_time`
to the fresh `time.time()` reading exactly when it returns a winner and leaves
it unchanged on every no-winner outcome (time gate, empty roster, no match);
for Cycle B, `run_btz_consensus` leaves its timer unchanged on every run and
never produces a winner (its only non-gated path raises `AttributeError`
before the timer update), so for both cycles the timer is updated if and only
if the run produces a winner. -/
theorem c4_timer_resets_iff_winner :
    ∀ (sst : SDBState) (t1 t2 : ℚ) (nodes : List String) (data : List NodeData)
      (bst : BTZState) (tg tc1 tc2 tu : ℚ) (bnodes : List String)
      (raw : List NodeData) (reps : List VerReport) (rb : Nat),
      (run_sdb_consensus sst t1 t2 nodes data).2.last_reward_time
        = (match (run_sdb_consensus sst t1 t2 nodes data).1 with
           | some _ => t2
           | none => sst.last_reward_time)
      ∧ (run_btz_consensus bst tg bnodes raw reps tc1 tc2 tu rb).2.last_reward_time
        = bst.last_reward_time
      ∧ exceptHasWinner (run_btz_consensus bst tg bnodes raw reps tc1 tc2 tu rb).1 = false := by
  intro sst t1 t2 nodes data bst tg tc1 tc2 tu bnodes raw reps rb
  refine ⟨?_, ?_, ?_⟩
  · unfold run_sdb_consensus
    split_ifs <;> try rfl
    cases h : find_seed_match_winner data (generate_favorite_seed sst) <;> simp [h]
  · unfold run_btz_consensus
    split_ifs <;> rfl
  · unfold run_btz_consensus
    split_ifs <;> rfl

/-- Helper: a successful `List.find?` returns a satisfying element together
with a decomposition of the list in which every earlier element fails the
predicate. -/
theorem findFirstDecomp {α : Type} {p : α → Bool} :
    ∀ (l : List α) (a : α), l.find? p = some a →
      p a = true ∧ ∃ l1 l2, l = l1 ++ a :: l2 ∧ ∀ x ∈ l1, p x = false := by
  intro l
  induction l with
  | nil => intro a h; simp [List.find?] at h
  | cons x xs ih =>
    intro a h
    by_cases hx : p x = true
    · rw [List.find?_cons_of_pos _ hx] at h
      cases h
      exact ⟨hx, [], xs, rfl, by simp⟩
    · rw [List.find?_cons_of_neg _ (by simpa using hx)] at h
      obtain ⟨hpa, l1, l2, hsplit, hall⟩ := ih a h
      refine ⟨hpa, x :: l1, l2, by rw [hsplit]; rfl, ?_⟩
      intro y hy
      rcases List.mem_cons.mp hy with hy | hy
      · subst hy; simpa using hx
      · exact hall y hy

/-- C5: Cycle-A winner selection is an explicit first-match policy on the
first 5 characters of the target seed: `_find_seed_match_winner` returns
`None` exactly when no participant's `data_proof_hash` starts with the
5-character target prefix, and when it returns a winner, that winner matches
the prefix and every participant placed earlier in scan order fails it —
later placement never beats an earlier match. -/
theorem c5_first_match_policy :
    ∀ (data : List NodeData) (target_seed : String),
      (find_seed_match_winner data target_seed = none ↔
        ∀ nd ∈ data,
          pyStartsWith nd.data_proof_hash (pyTake target_seed MATCH_DIFFICULTY_LENGTH) = false)
      ∧ ∀ nd, find_seed_match_winner data target_seed = some nd →
          pyStartsWith nd.data_proof_hash (pyTake target_seed MATCH_DIFFICULTY_LENGTH) = true
          ∧ ∃ l1 l2, data = l1 ++ nd :: l2
              ∧ ∀ x ∈ l1,
                  pyStartsWith x.data_proof_hash (pyTake target_seed MATCH_DIFFICULTY_LENGTH) = false := by
  intro data target_seed
  constructor
  · unfold find_seed_match_winner
    rw [List.find?_eq_none]
    constructor
    · intro h nd hnd
      simpa using h nd hnd
    · intro h nd hnd
      simp [h nd hnd]
  · intro nd h
    exact findFirstDecomp data nd h

/-- C5 witness: on the concrete roster `[nodeMiss, nodeMatch]` with target
seed `abcdef0123456789`, the scan returns `nodeMatch`, and by the theorem its
proof hash carries the `abcde` prefix. -/
theorem c5_first_match_policy_witness :
    find_seed_match_winner [nodeMiss, nodeMatch] "abcdef0123456789" = some nodeMatch
    ∧ pyStartsWith nodeMatch.data_proof_hash
        (pyTake "abcdef0123456789" MATCH_DIFFICULTY_LENGTH) = true := by
  have hfind : find_seed_match_winner [nodeMiss, nodeMatch] "abcdef0123456789" = some nodeMatch := by
    rfl
  exact ⟨hfind,
    ((c5_first_match_policy [nodeMiss, nodeMatch] "abcdef0123456789").2 nodeMatch hfind).1⟩

/-- C6: the claim describes the Cycle-B selection (discard unverified, pick
the highest verified packet total).  The join (second conjunct) and the
defined-but-unreachable winner method (third conjunct) would indeed exclude
the unverified highest-traffic node (total 5000) and select the next-highest
verified node (total 4999); but `run_btz_consensus` itself raises
`AttributeError` on every non-gated run (first conjunct) because line 111
calls the nonexistent method `_determine_highest_traffic_node`, so the
selection never happens. -/
theorem c6_run_btz_always_raises :
    run_btz_consensus ⟨0⟩ 1000 ["0xPACKET_LOAD_MASTER_C3D4", "0xHIGH_IO_FLOW_NODE_F5G6"]
        [nodeHigh, nodeNext] [reportHighUnverified, reportNextVerified] 1001 1001 1002 99
      = (.error (.attributeError "_determine_highest_traffic_node"), ⟨0⟩)
    ∧ joinEligible [nodeHigh, nodeNext] [reportHighUnverified, reportNextVerified]
      = [eligibleNext]
    ∧ determine_highest_traffic_winner [eligibleNext] = some eligibleNext := by
  refine ⟨?_, ?_, ?_⟩
  · unfold run_btz_consensus
    rw [if_neg (show ¬ ((1000 : ℚ) - (⟨0⟩ : BTZState).last_reward_time
        < (BTZ_CYCLE_TIME_SECONDS : ℚ)) by norm_num [BTZ_CYCLE_TIME_SECONDS])]
    rfl
  · rfl
  · rfl

/-- C7 counterexample: at time 100000 from `runnerState0`, the BTZ interval
has elapsed, yet the tick's BTZ branch never runs: the SDB branch raises
(its consensus call is ill-formed), the exception is caught by the per-tick
handler, and the rest of the tick is skipped — refuting the claim that a
failing cycle is converted to no-winner in a way that lets the other cycle's
check still run in the same tick. -/
theorem c7_counterexample_sdb_failure_skips_btz :
    ((BTZ_REWARD_CYCLE : ℚ) ≤ 100000 - runnerState0.last_btz_reward_time)
    ∧ (runner_tick runnerState0 100000).2.caught
        = some (.typeError "run_sdb_consensus() takes 1 positional argument but 2 were given")
    ∧ (runner_tick runnerState0 100000).2.btz_consensus_called = false := by
  refine ⟨by norm_num [runnerState0, BTZ_REWARD_CYCLE], ?_, ?_⟩ <;>
    · unfold runner_tick
      rw [if_pos (show ((SDB_REWARD_CYCLE : ℚ) ≤ 100000 - runnerState0.last_sdb_reward_time)
          by norm_num [runnerState0, SDB_REWARD_CYCLE])]
      rfl

/-- C7 amended: failures inside a tick are caught one level up, at the
scheduler's whole-tick `try`/`except` (the node survives, logs, and retries
next tick); within a single tick, a failure in the SDB branch skips the BTZ
branch of that tick, and the BTZ branch runs only when the SDB branch raised
nothing — here, only when the SDB interval has not elapsed.  In every case
the tick leaves the runner state unchanged. -/
theorem c7_tick_failure_containment :
    ∀ (st : RunnerState) (t : ℚ),
      ((SDB_REWARD_CYCLE : ℚ) ≤ t - st.last_sdb_reward_time →
        (runner_tick st t).1 = st
        ∧ (runner_tick st t).2.btz_consensus_called = false
        ∧ (runner_tick st t).2.caught
            = some (.typeError "run_sdb_consensus() takes 1 positional argument but 2 were given"))
      ∧ (¬ (SDB_REWARD_CYCLE : ℚ) ≤ t - st.last_sdb_reward_time →
          (BTZ_REWARD_CYCLE : ℚ) ≤ t - st.last_btz_reward_time →
          (runner_tick st t).1 = st
          ∧ (runner_tick st t).2.btz_consensus_called = true
          ∧ (runner_tick st t).2.caught
              = some (.typeError "run_btz_consensus() takes 1 positional argument but 2 were given")) := by
  intro st t
  constructor
  · intro h
    unfold runner_tick
    rw [if_pos h]
    exact ⟨rfl, rfl, rfl⟩
  · intro h hb
    unfold runner_tick
    rw [if_neg h]
    unfold runner_tick_btz
    rw [if_pos hb]
    exact ⟨rfl, rfl, rfl⟩

/-- C7 amended witness: from `runnerState1` at time 1000 the SDB gate is
fresh and the BTZ gate elapsed, so the BTZ branch runs (and its own failure
is caught at the tick boundary). -/
theorem c7_tick_failure_containment_witness :
    (runner_tick runnerState1 1000).1 = runnerState1
    ∧ (runner_tick runnerState1 1000).2.btz_consensus_called = true
    ∧ (runner_tick runnerState1 1000).2.caught
        = some (.typeError "run_btz_consensus() takes 1 positional argument but 2 were given") :=
  (c7_tick_failure_containment runnerState1 1000).2
    (by norm_num [runnerState1, SDB_REWARD_CYCLE])
    (by norm_num [runnerState1, BTZ_REWARD_CYCLE])

/-- Helper: from any starting nonce that is at most `10000` away from the
cutoff, the proof-of-work loop either returns a difficulty-meeting hash found
at some nonce between the start and 10000, or returns the typed degraded
`NonceExceeded-` result built from the hash at nonce 10000. -/
theorem powLoop_bounded (raw_data : String) :
    ∀ (k n : Nat), n + k = 10000 →
      (∃ m, n ≤ m ∧ m ≤ 10000
          ∧ powLoop raw_data n = sha256_hash (raw_data ++ toString m)
          ∧ pyStartsWith (sha256_hash (raw_data ++ toString m))
              MINIMUM_VERIFICATION_HASH_DIFFICULTY = true)
      ∨ powLoop raw_data n
          = "NonceExceeded-" ++ pyTake (sha256_hash (raw_data ++ toString 10000)) 10 := by
  intro k
  induction k with
  | zero =>
    intro n hn
    have hn' : n = 10000 := by omega
    subst hn'
    by_cases h : pyStartsWith (sha256_hash (raw_data ++ toString 10000))
        MINIMUM_VERIFICATION_HASH_DIFFICULTY = true
    · exact Or.inl ⟨10000, Nat.le_refl _, Nat.le_refl _, by rw [powLoop.eq_def]; simp [h], h⟩
    · refine Or.inr ?_
      rw [powLoop.eq_def]
      simp [h]
  | succ k ih =>
    intro n hn
    by_cases h : pyStartsWith (sha256_hash (raw_data ++ toString n))
        MINIMUM_VERIFICATION_HASH_DIFFICULTY = true
    · exact Or.inl ⟨n, Nat.le_refl _, by omega, by rw [powLoop.eq_def]; simp [h], h⟩
    · have hnocut : ¬ (n + 1 > 10000) := by omega
      have hstep : powLoop raw_data n = powLoop raw_data (n + 1) := by
        rw [powLoop.eq_def]
        simp [h, hnocut]
      rw [hstep]
      rcases ih (n + 1) (by omega) with ⟨m, hm1, hm2, hm3, hm4⟩ | hr
      · exact Or.inl ⟨m, by omega, hm2, hm3, hm4⟩
      · exact Or.inr hr

/-- C8: the verifier's proof-of-work search is a bounded search that
terminates on every input (`generate_proof_of_verification_work` is a total
function): it tries nonces from 0 up to the fixed cutoff 10000 and returns
either a hash meeting the difficulty target found at some nonce within the
cutoff, or the typed degraded result `"NonceExceeded-" + hash[:10]` built
from the final attempt — never an unbounded loop. -/
theorem c8_pow_search_bounded :
    ∀ raw_data : String,
      (∃ m, m ≤ 10000
          ∧ generate_proof_of_verification_work raw_data = sha256_hash (raw_data ++ toString m)
          ∧ pyStartsWith (sha256_hash (raw_data ++ toString m))
              MINIMUM_VERIFICATION_HASH_DIFFICULTY = true)
      ∨ generate_proof_of_verification_work raw_data
          = "NonceExceeded-" ++ pyTake (sha256_hash (raw_data ++ toString 10000)) 10 := by
  intro raw_data
  rcases powLoop_bounded raw_data 10000 0 rfl with ⟨m, _, hm2, hm3, hm4⟩ | hr
  · exact Or.inl ⟨m, hm2, hm3, hm4⟩
  · exact Or.inr hr

/-- C9: the claim says recorded difficulty increases by exactly 0.0000001
between consecutive stamped blocks.  In the code no such chain of blocks can
arise: every scheduler tick leaves the chain and the engine state unchanged
(first two conjuncts — the stamp calls raise `TypeError`, stamp results are
never appended, and `engine.update_complexity` is never invoked, so the
engine's recorded `COMPLEXITY_LEVEL` source value stays at its constructor
value), even though the runner's own `_update_complexity` rule (third
conjunct) and the recording of the engine complexity into the block field
(fourth conjunct) match the spec's intent. -/
theorem c9_no_difficulty_progression :
    ∀ (st : RunnerState) (t : ℚ),
      (runner_tick st t).1.blockchain = st.blockchain
      ∧ (runner_tick st t).1.engine = st.engine
      ∧ (runner_update_complexity st).current_complexity
        = st.current_complexity + COMPLEXITY_GROWTH_INCREMENT
      ∧ ∀ (complexity : ℚ) (index : Nat) (prev miner rt : String) (ra bt : ℤ)
          (sf : String) (ts : ℚ) (ct : String),
          (prepare_block_data complexity index prev miner rt ra bt sf ts ct).COMPLEXITY_LEVEL
            = complexity := by
  intro st t
  refine ⟨?_, ?_, rfl, fun _ _ _ _ _ _ _ _ _ _ => rfl⟩ <;>
    · unfold runner_tick runner_tick_btz
      split_ifs <;> rfl

end WifiChain
